import Mathlib

/-!
Verification development for the Koyal AI Nutrition Advisor app (`src/app.py`).

The program is a single Streamlit script that runs top to bottom on every
interaction.  We embed one script run as a pure function `runScript` of
  - the widget inputs (API key, condition, allergies, whether the submit
    button was pressed),
  - the external services (ChatGroq model construction, FAISS index
    deserialization, the retriever search delegated to the loaded vector
    store, and the remote generation call), and
  - the process-wide `st.cache_resource` cache of `load_vectorstore`.
The run returns the new cache, the user-facing effects it displayed, which
external calls it performed, and the query / prompt / documents it passed
downstream.  `st.stop()` is modelled by returning immediately from the
corresponding branch; an uncaught exception from the generation call is
modelled as the framework-displayed error effect that aborts the run.

Python strings are modelled as `List Char`; Python's `not s` truthiness test
on a string is exactly the test `s = []`.
-/

namespace Koyal

/-- Python strings, modelled as lists of characters. -/
abbrev Str := List Char

/-- Coerce a Lean string literal to the model's string type. -/
def str (s : String) : Str := s.data

/-- A LangChain document: only its text (`page_content`) matters here. -/
structure Document where
  page_content : Str
deriving DecidableEq, Repr

/-- The loaded FAISS vector store, abstracted as its similarity-search
function from a query string to the ordered list of retrieved documents
(`vectorstore.as_retriever()` / `retriever.invoke(query)` in `app.py`). -/
structure VectorStore where
  search : Str → List Document

/-- The external services the script calls out to:
`chatGroqOk` is whether the `ChatGroq(...)` construction (app.py lines
131-138) succeeds; `faissLoad` is the outcome of
`FAISS.load_local("faiss_index", ...)` (lines 146-150), `none` meaning the
deserialization raised; `generate` is the remote generation call made by
`document_chain.invoke` on the rendered prompt, `none` meaning the network
call raised (auth error, network error, rate limit). -/
structure Services where
  chatGroqOk : Bool
  faissLoad : Option VectorStore
  generate : Str → Option Str

/-- The widget state of one script run: the sidebar API key field, the two
text inputs, and whether the submit button returned `True` this run. -/
structure Inputs where
  groq_api_key : Str
  condition : Str
  allergies : Str
  buttonPressed : Bool

/-- The `st.cache_resource` cache for `load_vectorstore`: `none` when the
function has never completed in this process, `some r` when its result `r`
(possibly `none`, since the function catches the exception and returns
`None`) has been cached. -/
abbrev Cache := Option (Option VectorStore)

/-- The user-facing effects a run can display, in the order shown. -/
inductive Effect where
  /-- st.error at line 126: missing GROQ API key. -/
  | errorMissingKey : Effect
  /-- st.error at line 137: ChatGroq construction failed. -/
  | errorModelLoad : Effect
  /-- st.error at line 153: FAISS index deserialization failed. -/
  | errorIndexLoad : Effect
  /-- st.warning at line 215: empty condition or allergies field. -/
  | warnEmptyFields : Effect
  /-- The uncaught exception from `document_chain.invoke`, displayed by the
  framework as an error for this run only. -/
  | errorGeneration : Effect
  /-- st.write of the generated response at line 245. -/
  | showResponse : Str → Effect
deriving DecidableEq, Repr

/-- Which external calls a run actually performed. -/
structure Calls where
  /-- the `ChatGroq(...)` constructor was executed -/
  modelAttempted : Bool
  /-- `FAISS.load_local` was executed (a cache miss in `load_vectorstore`) -/
  indexDeserialized : Bool
  /-- `retriever.invoke(query)` was executed -/
  retrieverInvoked : Bool
  /-- `document_chain.invoke(...)` reached the remote generation call -/
  generationInvoked : Bool
deriving DecidableEq, Repr

/-- No external call performed. -/
def noCalls : Calls :=
  { modelAttempted := false, indexDeserialized := false,
    retrieverInvoked := false, generationInvoked := false }

/-- The observable outcome of one script run. -/
structure RunResult where
  /-- the `st.cache_resource` cache after the run -/
  cache : Cache
  /-- the user-facing effects displayed, in order -/
  effects : List Effect
  /-- which external calls were performed -/
  calls : Calls
  /-- the query string passed to `retriever.invoke`, if retrieval ran -/
  sentQuery : Option Str
  /-- the rendered prompt sent to the generation service, if generation ran -/
  sentPrompt : Option Str
  /-- the documents returned by retrieval (empty if retrieval did not run) -/
  retrieved : List Document

/-- Text of the fixed prompt template (app.py lines 163-175) before the
`condition` placeholder. -/
def tmpl1 : Str := str "\nYou are a nutrition AI assistant that gives dietary recommendations based on peer-reviewed research.\nGiven a patient\x27s health condition(s) and allergy profile, provide specific and research-backed nutrition advice.\nUse only medically accurate, peer-reviewed information. Cite nutritional reasoning if available.\n\nPatient Condition(s): "

/-- Template text between the `condition` and `allergies` placeholders. -/
def tmpl2 : Str := str "\nAllergies: "

/-- Template text between the `allergies` and `context` placeholders. -/
def tmpl3 : Str := str "\n\nContext from medical literature:\n"

/-- Template text after the `context` placeholder. -/
def tmpl4 : Str := str "\n\nWhat are the best dietary recommendations for this patient?\n"

/-- Render the fixed `ChatPromptTemplate` by substituting the three fields
(`prompt` in app.py). -/
def prompt (condition allergies context : Str) : Str :=
  tmpl1 ++ condition ++ tmpl2 ++ allergies ++ tmpl3 ++ context ++ tmpl4

/-- How `create_stuff_documents_chain` stuffs the retrieved documents into
the `context` placeholder: each document's `page_content`, joined by the
default separator of two newline characters. -/
def format_docs : List Document → Str
  | [] => []
  | [d] => d.page_content
  | d :: ds => d.page_content ++ str "\n\n" ++ format_docs ds

/-- The query string built at app.py line 218 from the two inputs by the
f-string with a single space between them. -/
def queryOf (condition allergies : Str) : Str :=
  condition ++ str " " ++ allergies

/-- The `st.cache_resource`-decorated `load_vectorstore` (app.py lines
143-154): on a cache hit return the cached result without executing the
body; on a miss execute `FAISS.load_local` (returning `None` if it raises)
and cache whatever was returned, `None` included.  Returns the result, the
new cache, and whether the deserialization was actually attempted. -/
def load_vectorstore (svc : Services) (cache : Cache) :
    Option VectorStore × Cache × Bool :=
  match cache with
  | some r => (r, some r, false)
  | none => (svc.faissLoad, some svc.faissLoad, true)

/-- What the submit-button part of the script did, independently of the
cache bookkeeping. -/
structure SubmitOutcome where
  effects : List Effect
  retrieverInvoked : Bool
  generationInvoked : Bool
  sentQuery : Option Str
  sentPrompt : Option Str
  retrieved : List Document

/-- The part of the script from the submit button on (app.py lines
213-249), reached only once the vector store is loaded. -/
def handleSubmit (svc : Services) (inp : Inputs) (vs : VectorStore) :
    SubmitOutcome :=
  if inp.buttonPressed = false then
    { effects := [], retrieverInvoked := false, generationInvoked := false,
      sentQuery := none, sentPrompt := none, retrieved := [] }
  else if inp.condition = [] ∨ inp.allergies = [] then
    { effects := [Effect.warnEmptyFields],
      retrieverInvoked := false, generationInvoked := false,
      sentQuery := none, sentPrompt := none, retrieved := [] }
  else
    let query := queryOf inp.condition inp.allergies
    let retrieved_docs := vs.search query
    let p := prompt inp.condition inp.allergies (format_docs retrieved_docs)
    match svc.generate p with
    | none =>
      { effects := [Effect.errorGeneration],
        retrieverInvoked := true, generationInvoked := true,
        sentQuery := some query, sentPrompt := some p,
        retrieved := retrieved_docs }
    | some resp =>
      { effects := [Effect.showResponse resp],
        retrieverInvoked := true, generationInvoked := true,
        sentQuery := some query, sentPrompt := some p,
        retrieved := retrieved_docs }

/-- One top-to-bottom run of the script (app.py lines 125-249): the API-key
gate, the ChatGroq construction, the cached vector-store load with its
`None` check, and then the submit handler. -/
def runScript (svc : Services) (inp : Inputs) (cache : Cache) : RunResult :=
  if inp.groq_api_key = [] then
    { cache := cache, effects := [Effect.errorMissingKey], calls := noCalls,
      sentQuery := none, sentPrompt := none, retrieved := [] }
  else if svc.chatGroqOk = false then
    { cache := cache, effects := [Effect.errorModelLoad],
      calls := { noCalls with modelAttempted := true },
      sentQuery := none, sentPrompt := none, retrieved := [] }
  else
    match load_vectorstore svc cache with
    | (none, cache2, att) =>
      { cache := cache2,
        effects := if att then [Effect.errorIndexLoad] else [],
        calls := { noCalls with modelAttempted := true, indexDeserialized := att },
        sentQuery := none, sentPrompt := none, retrieved := [] }
    | (some vs, cache2, att) =>
      let o := handleSubmit svc inp vs
      { cache := cache2, effects := o.effects,
        calls := { modelAttempted := true, indexDeserialized := att,
                   retrieverInvoked := o.retrieverInvoked,
                   generationInvoked := o.generationInvoked },
        sentQuery := o.sentQuery, sentPrompt := o.sentPrompt,
        retrieved := o.retrieved }

/-- A process lifetime: successive script runs threading the
`st.cache_resource` cache; the services may change between runs (the index
file may appear or disappear on disk). -/
def runSeq (cfgs : List (Services × Inputs)) (cache : Cache) : List RunResult :=
  match cfgs with
  | [] => []
  | (svc, inp) :: rest =>
    let r := runScript svc inp cache
    r :: runSeq rest r.cache

/-- How many runs of a process actually executed the FAISS deserialization. -/
def deserialCount (rs : List RunResult) : Nat :=
  rs.countP (fun r => r.calls.indexDeserialized)

/-- Substring containment: `sub` occurs contiguously inside `s`. -/
def contains_str (s sub : Str) : Prop := ∃ a b, s = a ++ sub ++ b

/-! ### Helper lemmas about the rendered prompt -/

/-- The rendered prompt contains the condition field verbatim. -/
theorem prompt_contains_condition (c a ctx : Str) :
    contains_str (prompt c a ctx) c :=
  ⟨tmpl1, tmpl2 ++ a ++ tmpl3 ++ ctx ++ tmpl4, by
    simp [prompt, List.append_assoc]⟩

/-- The rendered prompt contains the allergies field verbatim. -/
theorem prompt_contains_allergies (c a ctx : Str) :
    contains_str (prompt c a ctx) a :=
  ⟨tmpl1 ++ c ++ tmpl2, tmpl3 ++ ctx ++ tmpl4, by
    simp [prompt, List.append_assoc]⟩

/-- Anything contained in the context field is contained in the rendered
prompt. -/
theorem prompt_contains_of_ctx (c a ctx x : Str)
    (h : contains_str ctx x) : contains_str (prompt c a ctx) x := by
  obtain ⟨u, v, huv⟩ := h
  exact ⟨tmpl1 ++ c ++ tmpl2 ++ a ++ tmpl3 ++ u, v ++ tmpl4, by
    simp [prompt, huv, List.append_assoc]⟩

/-- Every document in the list appears verbatim in the stuffed context. -/
theorem format_docs_contains (docs : List Document) (d : Document)
    (hd : d ∈ docs) : contains_str (format_docs docs) d.page_content := by
  induction docs with
  | nil => cases hd
  | cons x xs ih =>
    cases xs with
    | nil =>
      rcases List.mem_singleton.mp hd with rfl
      exact ⟨[], [], by simp [format_docs]⟩
    | cons y ys =>
      rcases List.mem_cons.mp hd with rfl | hmem
      · exact ⟨[], str "\n\n" ++ format_docs (y :: ys), by
          simp [format_docs, List.append_assoc]⟩
      · obtain ⟨u, v, huv⟩ := ih hmem
        exact ⟨x.page_content ++ str "\n\n" ++ u, v, by
          simp [format_docs, huv, List.append_assoc]⟩

/-! ### Helper lemmas about the script semantics -/

/-- Shape of the submit handler's outcome: either no generation call was
made (no prompt, no query), or the sent prompt is exactly the template
rendered over the inputs and the retrieved documents, and the sent query is
exactly the one built at line 218. -/
theorem handleSubmit_shape (svc : Services) (inp : Inputs) (vs : VectorStore) :
    ((handleSubmit svc inp vs).sentPrompt = none ∧
     (handleSubmit svc inp vs).sentQuery = none) ∨
    ((handleSubmit svc inp vs).sentPrompt =
        some (prompt inp.condition inp.allergies
          (format_docs ((handleSubmit svc inp vs).retrieved))) ∧
     (handleSubmit svc inp vs).sentQuery =
        some (queryOf inp.condition inp.allergies)) := by
  unfold handleSubmit
  split
  · exact Or.inl ⟨rfl, rfl⟩
  · split
    · exact Or.inl ⟨rfl, rfl⟩
    · dsimp only
      split <;> exact Or.inr ⟨rfl, rfl⟩

/-- Shape of a whole run: either no prompt and no query were sent, or the
sent prompt is the template rendered over the inputs and the run's
retrieved documents, and the sent query is the line-218 concatenation. -/
theorem runScript_shape (svc : Services) (inp : Inputs) (cache : Cache) :
    ((runScript svc inp cache).sentPrompt = none ∧
     (runScript svc inp cache).sentQuery = none) ∨
    ((runScript svc inp cache).sentPrompt =
        some (prompt inp.condition inp.allergies
          (format_docs ((runScript svc inp cache).retrieved))) ∧
     (runScript svc inp cache).sentQuery =
        some (queryOf inp.condition inp.allergies)) := by
  unfold runScript
  split
  · exact Or.inl ⟨rfl, rfl⟩
  · split
    · exact Or.inl ⟨rfl, rfl⟩
    · split
      · exact Or.inl ⟨rfl, rfl⟩
      · exact handleSubmit_shape svc inp _

/-- A run started with a warm cache does not deserialize and leaves the
cache unchanged. -/
theorem runScript_warm_cache (svc : Services) (inp : Inputs)
    (r0 : Option VectorStore) :
    (runScript svc inp (some r0)).calls.indexDeserialized = false ∧
    (runScript svc inp (some r0)).cache = some r0 := by
  unfold runScript load_vectorstore
  split
  · exact ⟨rfl, rfl⟩
  · split
    · exact ⟨rfl, rfl⟩
    · cases r0 <;> simp [noCalls]

/-- A run started with a cold cache either leaves it cold without
deserializing (it halted at the key or model gate), or warms it with the
load outcome. -/
theorem runScript_cold_cache (svc : Services) (inp : Inputs) :
    ((runScript svc inp none).cache = none ∧
     (runScript svc inp none).calls.indexDeserialized = false) ∨
    (runScript svc inp none).cache = some svc.faissLoad := by
  unfold runScript load_vectorstore
  split
  · exact Or.inl ⟨rfl, rfl⟩
  · split
    · exact Or.inl ⟨rfl, rfl⟩
    · cases h : svc.faissLoad <;> simp [h]

/-- Unfolding lemma for the deserialization count of a process. -/
theorem deserialCount_cons (r : RunResult) (rs : List RunResult) :
    deserialCount (r :: rs) =
      deserialCount rs + (if r.calls.indexDeserialized then 1 else 0) := by
  simp [deserialCount, List.countP_cons]

/-- No deserialization ever happens in a process whose cache is already
warm. -/
theorem runSeq_warm_no_deserial (cfgs : List (Services × Inputs))
    (r0 : Option VectorStore) :
    deserialCount (runSeq cfgs (some r0)) = 0 := by
  induction cfgs generalizing r0 with
  | nil => rfl
  | cons c rest ih =>
    obtain ⟨svc, inp⟩ := c
    obtain ⟨h1, h2⟩ := runScript_warm_cache svc inp r0
    have hcons : runSeq ((svc, inp) :: rest) (some r0) =
        runScript svc inp (some r0) ::
          runSeq rest (runScript svc inp (some r0)).cache := rfl
    rw [deserialCount, hcons, h2, List.countP_cons, h1]
    simpa [deserialCount] using ih r0

/-! ### Concrete fixtures used by the witnesses -/

/-- Two concrete documents, standing for the index contents. -/
def docsW : List Document := [⟨str "docA"⟩, ⟨str "docB"⟩]

/-- A concrete vector store returning the two fixture documents. -/
def vsW : VectorStore := ⟨fun _ => docsW⟩

/-- Services whose generation call echoes its prompt (the spec's stubbed
echo generation service). -/
def svcEcho : Services := ⟨true, some vsW, fun p => some p⟩

/-- Services whose generation call always fails. -/
def svcGenFail : Services := ⟨true, some vsW, fun _ => none⟩

/-- Services whose index deserialization fails. -/
def svcLoadFail : Services := ⟨true, none, fun p => some p⟩

/-- Services whose model-client construction fails. -/
def svcModelFail : Services := ⟨false, some vsW, fun p => some p⟩

/-- A fully filled-in submission. -/
def inpW : Inputs := ⟨str "k", str "diabetes", str "nuts", true⟩

/-- A submission with an empty condition field. -/
def inpEmptyCond : Inputs := ⟨str "k", [], str "dairy", true⟩

/-- A state with an empty credential field. -/
def inpNoKey : Inputs := ⟨[], str "diabetes", str "nuts", true⟩

/-! ### The claims -/

/-- C1: for every submission that reaches the generation step, the prompt
rendered from the fixed template and sent to the generation service
contains the literal condition string, the literal allergies string, and
the text of every retrieved document. -/
theorem C1_prompt_contains_inputs_and_docs (svc : Services) (inp : Inputs)
    (cache : Cache) (p : Str)
    (h : (runScript svc inp cache).sentPrompt = some p) :
    contains_str p inp.condition ∧ contains_str p inp.allergies ∧
    ∀ d ∈ (runScript svc inp cache).retrieved,
      contains_str p d.page_content := by
  rcases runScript_shape svc inp cache with ⟨h1, _⟩ | ⟨h1, _⟩
  · rw [h1] at h; cases h
  · rw [h1] at h
    injection h with h
    subst h
    refine ⟨prompt_contains_condition _ _ _,
            prompt_contains_allergies _ _ _, ?_⟩
    intro d hd
    exact prompt_contains_of_ctx _ _ _ _ (format_docs_contains _ d hd)

/-- Witness for C1 at a concrete submission against the echo service. -/
theorem C1_witness :
    (runScript svcEcho inpW (some (some vsW))).sentPrompt =
      some (prompt (str "diabetes") (str "nuts") (format_docs docsW)) ∧
    (contains_str (prompt (str "diabetes") (str "nuts") (format_docs docsW))
        inpW.condition ∧
     contains_str (prompt (str "diabetes") (str "nuts") (format_docs docsW))
        inpW.allergies ∧
     ∀ d ∈ (runScript svcEcho inpW (some (some vsW))).retrieved,
       contains_str (prompt (str "diabetes") (str "nuts") (format_docs docsW))
         d.page_content) :=
  ⟨rfl, C1_prompt_contains_inputs_and_docs svcEcho inpW (some (some vsW))
    (prompt (str "diabetes") (str "nuts") (format_docs docsW)) rfl⟩

/-- C2: a submission whose condition string or allergies string is empty
gets the validation warning, and no retrieval call and no generation call
is performed. -/
theorem C2_empty_fields_warn (svc : Services) (vs : VectorStore)
    (inp : Inputs) (hk : inp.groq_api_key ≠ []) (hm : svc.chatGroqOk = true)
    (hb : inp.buttonPressed = true)
    (he : inp.condition = [] ∨ inp.allergies = []) :
    (runScript svc inp (some (some vs))).effects = [Effect.warnEmptyFields] ∧
    (runScript svc inp (some (some vs))).calls.retrieverInvoked = false ∧
    (runScript svc inp (some (some vs))).calls.generationInvoked = false := by
  simp [runScript, load_vectorstore, handleSubmit, hk, hm, hb, if_pos he]

/-- Witness for C2 at a concrete submission with an empty condition. -/
theorem C2_witness :
    (inpEmptyCond.groq_api_key ≠ [] ∧ svcEcho.chatGroqOk = true ∧
     inpEmptyCond.buttonPressed = true ∧
     (inpEmptyCond.condition = [] ∨ inpEmptyCond.allergies = [])) ∧
    ((runScript svcEcho inpEmptyCond (some (some vsW))).effects =
        [Effect.warnEmptyFields] ∧
     (runScript svcEcho inpEmptyCond (some (some vsW))).calls.retrieverInvoked
        = false ∧
     (runScript svcEcho inpEmptyCond (some (some vsW))).calls.generationInvoked
        = false) :=
  ⟨⟨by decide, rfl, rfl, Or.inl rfl⟩,
   C2_empty_fields_warn svcEcho vsW inpEmptyCond (by decide) rfl rfl
     (Or.inl rfl)⟩

/-- C3: when the supplied credential string is empty, the missing-credential
error is the only effect, and no model construction, no index load and no
network call happens; the cache is untouched. -/
theorem C3_empty_credential_no_calls (svc : Services) (inp : Inputs)
    (cache : Cache) (h : inp.groq_api_key = []) :
    (runScript svc inp cache).effects = [Effect.errorMissingKey] ∧
    (runScript svc inp cache).calls = noCalls ∧
    (runScript svc inp cache).cache = cache := by
  simp [runScript, h]

/-- Witness for C3 at the concrete empty-credential state. -/
theorem C3_witness :
    inpNoKey.groq_api_key = [] ∧
    ((runScript svcEcho inpNoKey none).effects = [Effect.errorMissingKey] ∧
     (runScript svcEcho inpNoKey none).calls = noCalls ∧
     (runScript svcEcho inpNoKey none).cache = none) :=
  ⟨rfl, C3_empty_credential_no_calls svcEcho inpNoKey none rfl⟩

/-- C4: if the model-client construction fails or the index deserialization
fails in a fresh process, the run reports a fatal error and halts: no
retrieval, no generation, no prompt is sent — no submission is served. -/
theorem C4_init_failure_halts (svc : Services) (inp : Inputs)
    (hk : inp.groq_api_key ≠ [])
    (hf : svc.chatGroqOk = false ∨ svc.faissLoad = none) :
    ((runScript svc inp none).effects = [Effect.errorModelLoad] ∨
     (runScript svc inp none).effects = [Effect.errorIndexLoad]) ∧
    (runScript svc inp none).calls.retrieverInvoked = false ∧
    (runScript svc inp none).calls.generationInvoked = false ∧
    (runScript svc inp none).sentPrompt = none := by
  rcases hf with hf | hf
  · simp [runScript, noCalls, hk, hf]
  · by_cases hm : svc.chatGroqOk = false
    · simp [runScript, noCalls, hk, hm]
    · simp [runScript, load_vectorstore, noCalls, hk, hm, hf]

/-- Witness for C4 at a concrete failing index load. -/
theorem C4_witness :
    (inpW.groq_api_key ≠ [] ∧
     (svcLoadFail.chatGroqOk = false ∨ svcLoadFail.faissLoad = none)) ∧
    (((runScript svcLoadFail inpW none).effects = [Effect.errorModelLoad] ∨
      (runScript svcLoadFail inpW none).effects = [Effect.errorIndexLoad]) ∧
     (runScript svcLoadFail inpW none).calls.retrieverInvoked = false ∧
     (runScript svcLoadFail inpW none).calls.generationInvoked = false ∧
     (runScript svcLoadFail inpW none).sentPrompt = none) :=
  ⟨⟨by decide, Or.inr rfl⟩,
   C4_init_failure_halts svcLoadFail inpW (by decide) (Or.inr rfl)⟩

/-- C5: a failing generation call surfaces as a user-facing error effect
for that submission, the generation call was indeed made, the process cache
is unchanged, and any later run proceeds from that cache exactly as it
would have from the original state. -/
theorem C5_generation_failure_scoped (svc : Services) (vs : VectorStore)
    (inp : Inputs) (hk : inp.groq_api_key ≠ []) (hm : svc.chatGroqOk = true)
    (hb : inp.buttonPressed = true) (hc : inp.condition ≠ [])
    (ha : inp.allergies ≠ [])
    (hg : svc.generate (prompt inp.condition inp.allergies
            (format_docs (vs.search (queryOf inp.condition inp.allergies))))
          = none) :
    (runScript svc inp (some (some vs))).effects = [Effect.errorGeneration] ∧
    (runScript svc inp (some (some vs))).calls.generationInvoked = true ∧
    (runScript svc inp (some (some vs))).cache = some (some vs) ∧
    ∀ (svc2 : Services) (inp2 : Inputs),
      runScript svc2 inp2 ((runScript svc inp (some (some vs))).cache) =
      runScript svc2 inp2 (some (some vs)) := by
  have hcache := (runScript_warm_cache svc inp (some vs)).2
  refine ⟨?_, ?_, hcache, fun svc2 inp2 => by rw [hcache]⟩ <;>
    simp [runScript, load_vectorstore, handleSubmit, hk, hm, hb, hc, ha, hg]

/-- Witness for C5 at a concrete submission against the failing generation
service. -/
theorem C5_witness :
    (inpW.groq_api_key ≠ [] ∧ svcGenFail.chatGroqOk = true ∧
     inpW.buttonPressed = true ∧ inpW.condition ≠ [] ∧ inpW.allergies ≠ [] ∧
     svcGenFail.generate (prompt inpW.condition inpW.allergies
       (format_docs (vsW.search (queryOf inpW.condition inpW.allergies))))
       = none) ∧
    ((runScript svcGenFail inpW (some (some vsW))).effects =
        [Effect.errorGeneration] ∧
     (runScript svcGenFail inpW (some (some vsW))).calls.generationInvoked
        = true ∧
     (runScript svcGenFail inpW (some (some vsW))).cache = some (some vsW) ∧
     ∀ (svc2 : Services) (inp2 : Inputs),
       runScript svc2 inp2 ((runScript svcGenFail inpW (some (some vsW))).cache)
         = runScript svc2 inp2 (some (some vsW))) :=
  ⟨⟨by decide, rfl, rfl, by decide, by decide, rfl⟩,
   C5_generation_failure_scoped svcGenFail vsW inpW (by decide) rfl rfl
     (by decide) (by decide) rfl⟩

/-- C6 fails as stated: at condition "a" and allergies "b" the query passed
to the retriever is "a b", which is not the plain concatenation "ab" of the
two input strings — the f-string at line 218 inserts a space between them. -/
theorem C6_counterexample :
    (runScript svcEcho ⟨str "k", str "a", str "b", true⟩
        (some (some vsW))).sentQuery = some (str "a b") ∧
    str "a b" ≠ str "a" ++ str "b" :=
  ⟨rfl, by decide⟩

/-- C6 amended: the query string passed to the retriever is the condition
text, a single space character, and the allergy text, concatenated in that
order. -/
theorem C6_amended_query_shape (svc : Services) (inp : Inputs)
    (cache : Cache) (q : Str)
    (h : (runScript svc inp cache).sentQuery = some q) :
    q = inp.condition ++ str " " ++ inp.allergies := by
  rcases runScript_shape svc inp cache with ⟨_, h1⟩ | ⟨_, h1⟩
  · rw [h1] at h; cases h
  · rw [h1] at h; injection h with h; subst h; rfl

/-- Witness for the amended C6 at a concrete submission. -/
theorem C6_amended_witness :
    (runScript svcEcho inpW (some (some vsW))).sentQuery =
      some (queryOf (str "diabetes") (str "nuts")) ∧
    queryOf (str "diabetes") (str "nuts") =
      inpW.condition ++ str " " ++ inpW.allergies :=
  ⟨rfl, C6_amended_query_shape svcEcho inpW (some (some vsW))
    (queryOf (str "diabetes") (str "nuts")) rfl⟩

/-- C7: re-running the same submission against the same services from the
state left by a first run retrieves the same ordered document sequence: a
run never mutates the loaded index, and retrieval is a function of the
index and the query string. -/
theorem C7_retrieval_deterministic (svc : Services) (inp : Inputs)
    (cache : Cache) :
    (runScript svc inp ((runScript svc inp cache).cache)).retrieved =
    (runScript svc inp cache).retrieved := by
  cases cache with
  | some r0 => rw [(runScript_warm_cache svc inp r0).2]
  | none =>
    by_cases hk : inp.groq_api_key = []
    · simp [runScript, hk]
    · by_cases hm : svc.chatGroqOk = false
      · simp [runScript, hk, hm]
      · cases hv : svc.faissLoad with
        | none => simp [runScript, load_vectorstore, hk, hm, hv]
        | some vs => simp [runScript, load_vectorstore, hk, hm, hv]

/-- C8: across any whole process lifetime started with a cold cache, the
FAISS deserialization is executed at most once; every later call to the
loader is served from the in-memory cache. -/
theorem C8_deserialize_at_most_once (cfgs : List (Services × Inputs)) :
    deserialCount (runSeq cfgs none) ≤ 1 := by
  induction cfgs with
  | nil => simp [runSeq, deserialCount]
  | cons c rest ih =>
    obtain ⟨svc, inp⟩ := c
    have hcons : runSeq ((svc, inp) :: rest) none =
        runScript svc inp none ::
          runSeq rest (runScript svc inp none).cache := rfl
    rw [hcons, deserialCount_cons]
    rcases runScript_cold_cache svc inp with ⟨h1, h2⟩ | h1
    · rw [h1, h2]
      simpa using ih
    · rw [h1, runSeq_warm_no_deserial rest svc.faissLoad]
      split <;> omega

/-- C9: with a loaded store and a pressed button, retrieval and generation
run exactly when both fields are non-empty strings — a whitespace-only
string passes the check; only the exactly-empty string is rejected. -/
theorem C9_only_empty_rejected (svc : Services) (vs : VectorStore)
    (inp : Inputs) (hk : inp.groq_api_key ≠ []) (hm : svc.chatGroqOk = true)
    (hb : inp.buttonPressed = true) :
    ((runScript svc inp (some (some vs))).calls.retrieverInvoked = true ∧
     (runScript svc inp (some (some vs))).calls.generationInvoked = true) ↔
    (inp.condition ≠ [] ∧ inp.allergies ≠ []) := by
  by_cases he : inp.condition = [] ∨ inp.allergies = []
  · simp [runScript, load_vectorstore, handleSubmit, hk, hm, hb, if_pos he]
    tauto
  · rw [not_or] at he
    obtain ⟨hc, ha⟩ := he
    cases hg : svc.generate (prompt inp.condition inp.allergies
        (format_docs (vs.search (queryOf inp.condition inp.allergies)))) <;>
      simp [runScript, load_vectorstore, handleSubmit, hk, hm, hb, hc, ha, hg]

/-- Witness for C9 at whitespace-only inputs, which pass the check. -/
theorem C9_witness :
    ((⟨str "k", str " ", str "  ", true⟩ : Inputs).groq_api_key ≠ [] ∧
     svcEcho.chatGroqOk = true ∧
     (⟨str "k", str " ", str "  ", true⟩ : Inputs).buttonPressed = true) ∧
    (((runScript svcEcho ⟨str "k", str " ", str "  ", true⟩
          (some (some vsW))).calls.retrieverInvoked = true ∧
      (runScript svcEcho ⟨str "k", str " ", str "  ", true⟩
          (some (some vsW))).calls.generationInvoked = true) ↔
     ((⟨str "k", str " ", str "  ", true⟩ : Inputs).condition ≠ [] ∧
      (⟨str "k", str " ", str "  ", true⟩ : Inputs).allergies ≠ [])) :=
  ⟨⟨by decide, rfl, rfl⟩,
   C9_only_empty_rejected svcEcho vsW ⟨str "k", str " ", str "  ", true⟩
     (by decide) rfl rfl⟩

/-- C10: when the first load in a process fails, the None result is itself
cached; a later run in the same process — even against services whose index
has become loadable, with a full submission — does not re-attempt the
deserialization and performs no retrieval and no generation. -/
theorem C10_failed_load_cached (svc1 svc2 : Services) (inp1 inp2 : Inputs)
    (hk1 : inp1.groq_api_key ≠ []) (hm1 : svc1.chatGroqOk = true)
    (hl1 : svc1.faissLoad = none)
    (hk2 : inp2.groq_api_key ≠ []) (hm2 : svc2.chatGroqOk = true) :
    (runScript svc1 inp1 none).cache = some none ∧
    (runScript svc1 inp1 none).calls.indexDeserialized = true ∧
    (runScript svc2 inp2 ((runScript svc1 inp1 none).cache)).calls.indexDeserialized
      = false ∧
    (runScript svc2 inp2 ((runScript svc1 inp1 none).cache)).calls.retrieverInvoked
      = false ∧
    (runScript svc2 inp2 ((runScript svc1 inp1 none).cache)).calls.generationInvoked
      = false ∧
    (runScript svc2 inp2 ((runScript svc1 inp1 none).cache)).sentPrompt = none := by
  have h1 : (runScript svc1 inp1 none).cache = some none := by
    simp [runScript, load_vectorstore, hk1, hm1, hl1]
  refine ⟨h1, ?_, ?_, ?_, ?_, ?_⟩ <;>
    simp [runScript, load_vectorstore, noCalls, hk1, hm1, hl1, h1, hk2, hm2]

/-- Witness for C10: first run with a missing index, second run with a
loadable one. -/
theorem C10_witness :
    (inpW.groq_api_key ≠ [] ∧ svcLoadFail.chatGroqOk = true ∧
     svcLoadFail.faissLoad = none ∧
     inpW.groq_api_key ≠ [] ∧ svcEcho.chatGroqOk = true) ∧
    ((runScript svcLoadFail inpW none).cache = some none ∧
     (runScript svcLoadFail inpW none).calls.indexDeserialized = true ∧
     (runScript svcEcho inpW ((runScript svcLoadFail inpW none).cache)).calls.indexDeserialized
       = false ∧
     (runScript svcEcho inpW ((runScript svcLoadFail inpW none).cache)).calls.retrieverInvoked
       = false ∧
     (runScript svcEcho inpW ((runScript svcLoadFail inpW none).cache)).calls.generationInvoked
       = false ∧
     (runScript svcEcho inpW ((runScript svcLoadFail inpW none).cache)).sentPrompt
       = none) :=
  ⟨⟨by decide, rfl, rfl, by decide, rfl⟩,
   C10_failed_load_cached svcLoadFail svcEcho inpW inpW (by decide) rfl rfl
     (by decide) rfl⟩

end Koyal
